import Mathlib

/-!
Verification development for the Blendrendest render-time estimator
(`__init__.py`). The Python module is shallowly embedded: Python floats
are modelled as exact rationals (`ℚ`), Python `None` as `Option`,
the process-wide mutable globals as an explicit `RenderState` record
threaded through the five lifecycle handlers, `time.time()` as an explicit
`now : ℚ` argument, and Python exceptions (`ZeroDivisionError`) as
`Except`.  Debug `print` calls and UI drawing are output-only and are not
part of the modelled state.
-/

namespace Blendrendest

/-! ## Activity table loader (`_load_time_activities`) -/

/-- One entry of the parsed `time_activities.json` document.
`item.get("threshold", 0)` / `item.get("suggestion", "")` are modelled by
`Option` fields read with `getD`. -/
structure RawItem where
  threshold : Option ℚ
  suggestion : Option String
  deriving Repr, DecidableEq

/-- The hardcoded fallback table (`default_activities` in the source). -/
def default_activities : List (ℚ × String) :=
  [(5, "Instant Render!"),
   (30, "Perfect time to stretch"),
   (60, "Grab a glass of water"),
   (300, "Do some quick desk exercises"),
   (600, "Go for a short walk"),
   (1800, "Watch an episode of your favorite show"),
   (3600, "Take a power nap"),
   (7200, "Go out for lunch"),
   (86400, "This might take a while - consider optimizing your scene")]

/-- `_load_time_activities`.  The input models the external file:
`none` is an unreadable or unparseable file (the `except` path of the
source), `some none` is a parsed document without an `activities` key
(`data.get("activities", [])` then yields `[]`), and `some (some items)`
is a parsed list of entries.  The loop keeps an entry when
`threshold and suggestion` is truthy in Python, i.e. when the threshold
(defaulted to 0) is nonzero and the suggestion (defaulted to `""`) is
nonempty; survivors are sorted ascending by threshold (`list.sort` is a
stable sort, modelled by `List.mergeSort`), and the fallback table is
returned when nothing valid survives. -/
def _load_time_activities (input : Option (Option (List RawItem))) :
    List (ℚ × String) :=
  match input with
  | none => default_activities
  | some acts =>
    let items := acts.getD []
    let activities := items.foldl (fun acc item =>
      let threshold := item.threshold.getD 0
      let suggestion := item.suggestion.getD ""
      if threshold ≠ 0 ∧ suggestion ≠ "" then acc ++ [(threshold, suggestion)]
      else acc) []
    let sorted := activities.mergeSort (fun a b => decide (a.1 ≤ b.1))
    if sorted ≠ [] then sorted else default_activities

/-! ## Activity lookup (`get_activity_for_time`) -/

/-- The `for threshold, suggestion in TIME_ACTIVITIES` loop of
`get_activity_for_time`: `activity` is overwritten while
`seconds >= threshold`, and the loop `break`s at the first entry whose
threshold exceeds `seconds`. -/
def activityLoop (seconds : ℚ) : String → List (ℚ × String) → String
  | acc, [] => acc
  | acc, (threshold, suggestion) :: rest =>
    if threshold ≤ seconds then activityLoop seconds suggestion rest else acc

/-- `get_activity_for_time`, parameterised by the loaded table (the source
reads the module-level `TIME_ACTIVITIES`).  Indexing `TIME_ACTIVITIES[0]`
on an empty table would raise `IndexError`, modelled by `none`. -/
def get_activity_for_time (table : List (ℚ × String)) (seconds : ℚ) :
    Option String :=
  if seconds ≤ 0 then some "Instant render!"
  else
    match table with
    | [] => none
    | (_, s0) :: _ => some (activityLoop seconds s0 table)

/-! ## Scene model and complexity extraction -/

/-- Object types distinguished by `get_scene_complexity`. -/
inductive ObjType where
  | MESH
  | LIGHT
  | VOLUME
  | OTHER
  deriving Repr, DecidableEq

/-- One `bpy.data.objects` entry: type tag, `visible_get()` result, and
`obj.data` (for meshes, `none` models `obj.data is None`; the payload is
`len(obj.data.vertices)`). -/
structure BObject where
  objType : ObjType
  visible : Bool
  data_verts : Option ℕ
  deriving Repr, DecidableEq

/-- The ambient `bpy.data` the complexity extractor iterates over. -/
structure BlendData where
  objects : List BObject
  deriving Repr, DecidableEq

/-- `scene.render` fields read by the estimator. -/
structure RenderSettings where
  resolution_x : ℕ
  resolution_y : ℕ
  resolution_percentage : ℕ
  deriving Repr, DecidableEq

/-- `scene.cycles` fields read by `estimate_cycles_render_time`. -/
structure CyclesSettings where
  samples : ℚ
  use_adaptive_sampling : Bool
  adaptive_threshold : ℚ
  use_fast_gi : Bool
  use_denoising : Bool
  deriving Repr, DecidableEq

/-- `scene.eevee` fields read by `estimate_eevee_render_time`. -/
structure EeveeSettings where
  taa_render_samples : ℚ
  use_volumetric_lights : Bool
  use_ssr : Bool
  use_gtao : Bool
  deriving Repr, DecidableEq

/-- `scene.render.engine` values the dispatch distinguishes. -/
inductive Engine where
  | CYCLES
  | BLENDER_EEVEE_NEXT
  | BLENDER_EEVEE
  | OTHER
  deriving Repr, DecidableEq

/-- The slice of `bpy.types.Scene` the estimator reads. -/
structure Scene where
  engine : Engine
  render : RenderSettings
  cycles : CyclesSettings
  eevee : EeveeSettings
  frame_start : ℤ
  frame_end : ℤ
  frame_current : ℤ
  deriving Repr, DecidableEq

/-- The addon preferences read and (for `calibration_factor`) written by
the module. -/
structure Prefs where
  calibration_factor : ℚ
  auto_calibrate : Bool
  show_debug : Bool
  persistent_progress : Bool
  deriving Repr, DecidableEq

/-- The dictionary returned by `get_scene_complexity`. -/
structure Complexity where
  mesh_count : ℕ
  light_count : ℕ
  volume_count : ℕ
  total_verts : ℕ
  res_x : ℚ
  res_y : ℚ
  pixel_count : ℚ
  deriving Repr, DecidableEq

/-- `get_scene_complexity`. -/
def get_scene_complexity (d : BlendData) (scene : Scene) : Complexity :=
  let mesh_count := d.objects.countP
    (fun o => decide (o.objType = ObjType.MESH) && o.visible)
  let light_count := d.objects.countP
    (fun o => decide (o.objType = ObjType.LIGHT) && o.visible)
  let volume_count := d.objects.countP
    (fun o => decide (o.objType = ObjType.VOLUME) && o.visible)
  let total_verts := d.objects.foldl (fun acc o =>
    match o.data_verts with
    | some v => if o.objType = ObjType.MESH ∧ o.visible then acc + v else acc
    | none => acc) 0
  let res_x : ℚ := (scene.render.resolution_x : ℚ) *
    ((scene.render.resolution_percentage : ℚ) / 100)
  let res_y : ℚ := (scene.render.resolution_y : ℚ) *
    ((scene.render.resolution_percentage : ℚ) / 100)
  { mesh_count := mesh_count
    light_count := light_count
    volume_count := volume_count
    total_verts := total_verts
    res_x := res_x
    res_y := res_y
    pixel_count := res_x * res_y }

/-! ## Cost model -/

/-- `estimate_cycles_render_time` (decimal literals of the source written
as exact rationals: 0.5 = 1/2, 0.7 = 7/10, 0.9 = 9/10, 0.01 = 1/100,
0.05 = 1/20, 0.3 = 3/10). -/
def estimate_cycles_render_time (prefs : Prefs) (scene : Scene)
    (complexity : Complexity) : ℚ :=
  let samples := scene.cycles.samples
  let effective_samples :=
    if scene.cycles.use_adaptive_sampling then
      samples * (1/2 + scene.cycles.adaptive_threshold * 5)
    else samples
  let fast_gi_factor : ℚ := if scene.cycles.use_fast_gi then 7/10 else 1
  let denoiser_factor : ℚ := if scene.cycles.use_denoising then 9/10 else 1
  let baseline_pixels : ℚ := 1920 * 1080
  let resolution_factor := complexity.pixel_count / baseline_pixels
  let object_factor : ℚ :=
    1 + (complexity.mesh_count : ℚ) * (1/100) +
      (complexity.total_verts : ℚ) / 1000000
  let light_factor : ℚ := 1 + (complexity.light_count : ℚ) * (1/20)
  let volume_factor : ℚ := 1 + (complexity.volume_count : ℚ) * (3/10)
  let calibration := prefs.calibration_factor
  let estimated_time :=
    (effective_samples / 100) * resolution_factor * object_factor *
      light_factor * volume_factor * fast_gi_factor * denoiser_factor *
      calibration
  max 1 estimated_time

/-- `estimate_eevee_render_time` (0.005 = 1/200, 0.02 = 1/50, 1.3 = 13/10,
1.15 = 23/20, 1.05 = 21/20, 0.1 = 1/10, 0.5 = 1/2).  Note the source
scales the calibration factor by 0.1 for this backend. -/
def estimate_eevee_render_time (prefs : Prefs) (scene : Scene)
    (complexity : Complexity) : ℚ :=
  let samples := scene.eevee.taa_render_samples
  let baseline_pixels : ℚ := 1920 * 1080
  let resolution_factor := complexity.pixel_count / baseline_pixels
  let object_factor : ℚ := 1 + (complexity.mesh_count : ℚ) * (1/200)
  let light_factor : ℚ := 1 + (complexity.light_count : ℚ) * (1/50)
  let volumetrics_factor : ℚ :=
    if scene.eevee.use_volumetric_lights then 13/10 else 1
  let ssr_factor : ℚ := if scene.eevee.use_ssr then 23/20 else 1
  let ao_factor : ℚ := if scene.eevee.use_gtao then 21/20 else 1
  let calibration := prefs.calibration_factor * (1/10)
  let estimated_time :=
    (samples / 64) * resolution_factor * object_factor * light_factor *
      volumetrics_factor * ssr_factor * ao_factor * calibration
  max (1/2) estimated_time

/-- `estimate_single_frame_time`: dispatch on `scene.render.engine` with a
fixed 5-second fallback for unknown engines. -/
def estimate_single_frame_time (d : BlendData) (prefs : Prefs)
    (scene : Scene) : ℚ :=
  let complexity := get_scene_complexity d scene
  match scene.engine with
  | Engine.CYCLES => estimate_cycles_render_time prefs scene complexity
  | Engine.BLENDER_EEVEE_NEXT => estimate_eevee_render_time prefs scene complexity
  | Engine.BLENDER_EEVEE => estimate_eevee_render_time prefs scene complexity
  | Engine.OTHER => 5

/-- `estimate_animation_time`. -/
def estimate_animation_time (d : BlendData) (prefs : Prefs)
    (scene : Scene) : ℚ :=
  let frame_time := estimate_single_frame_time d prefs scene
  let total_frames := scene.frame_end - scene.frame_start + 1
  frame_time * (total_frames : ℚ)

/-! ## Time formatting -/

/-- Python `int(sec)`: truncation toward zero. -/
def pyInt (q : ℚ) : ℤ :=
  Int.tdiv q.num (q.den : ℤ)

/-- The `f"{n:02}"` format used for hours/minutes/seconds. -/
def pad2 (n : ℤ) : String :=
  if 0 ≤ n ∧ n < 10 then "0" ++ toString n else toString n

/-- `format_time_HHMMSS` (`//` and `%` of Python on a positive divisor are
floor division and nonnegative remainder, i.e. `Int.ediv` / `Int.emod`). -/
def format_time_HHMMSS (sec : ℚ) : String :=
  let s0 := pyInt sec
  let days := Int.ediv s0 86400
  let s1 := Int.emod s0 86400
  let hours := Int.ediv s1 3600
  let s2 := Int.emod s1 3600
  let minutes := Int.ediv s2 60
  let seconds := Int.emod s2 60
  if days > 0 then
    toString days ++ "d " ++ pad2 hours ++ ":" ++ pad2 minutes ++ ":" ++
      pad2 seconds
  else
    pad2 hours ++ ":" ++ pad2 minutes ++ ":" ++ pad2 seconds

/-- `format_time_human`. -/
def format_time_human (sec : ℚ) : String :=
  let s0 := pyInt sec
  let days := Int.ediv s0 86400
  let s1 := Int.emod s0 86400
  let hours := Int.ediv s1 3600
  let s2 := Int.emod s1 3600
  let minutes := Int.ediv s2 60
  let seconds := Int.emod s2 60
  let parts : List String := []
  let parts := if days ≠ 0 then
    parts ++ [toString days ++ " day" ++ (if days ≠ 1 then "s" else "")]
    else parts
  let parts := if hours ≠ 0 then
    parts ++ [toString hours ++ " hour" ++ (if hours ≠ 1 then "s" else "")]
    else parts
  let parts := if minutes ≠ 0 then
    parts ++ [toString minutes ++ " minute" ++ (if minutes ≠ 1 then "s" else "")]
    else parts
  let parts := if seconds ≠ 0 ∨ parts = [] then
    parts ++ [toString seconds ++ " second" ++ (if seconds ≠ 1 then "s" else "")]
    else parts
  String.intercalate ", " parts

/-! ## Render lifecycle state -/

/-- The module-level mutable globals of the source, gathered into one
record: `_frame_start` (a dict, modelled as an association list),
`_total_start`, `_first_rendered_frame`, `_last_frame_time`,
`_last_eta_human`, `_last_eta_HHMMSS`, `_progress`, `_is_rendering`,
`_total_time`, `_avg_time`, `_single_frame_render`, `_single_frame_start`,
`_detected_animation`, `_pre_render_estimate`. -/
structure RenderState where
  frame_start : List (ℤ × ℚ)
  total_start : Option ℚ
  first_rendered_frame : Option ℤ
  last_frame_time : ℚ
  last_eta_human : String
  last_eta_HHMMSS : String
  progress : ℚ
  is_rendering : Bool
  total_time : Option ℚ
  avg_time : Option ℚ
  single_frame_render : Bool
  single_frame_start : Option ℚ
  detected_animation : Bool
  pre_render_estimate : Option ℚ
  deriving Repr, DecidableEq

/-- The globals as initialised at module import time. -/
def initial_state : RenderState :=
  { frame_start := []
    total_start := none
    first_rendered_frame := none
    last_frame_time := 0
    last_eta_human := "AWAITING RENDER"
    last_eta_HHMMSS := "AWAITING RENDER"
    progress := 0
    is_rendering := false
    total_time := none
    avg_time := none
    single_frame_render := false
    single_frame_start := none
    detected_animation := false
    pre_render_estimate := none }

/-- Dict assignment `d[k] = v`. -/
def dictSet (k : ℤ) (v : ℚ) (d : List (ℤ × ℚ)) : List (ℤ × ℚ) :=
  (k, v) :: d.filter (fun p => decide (p.1 ≠ k))

/-- Dict lookup with default, `d.get(k, dflt)`. -/
def dictGetD (d : List (ℤ × ℚ)) (k : ℤ) (dflt : ℚ) : ℚ :=
  match d.find? (fun p => decide (p.1 = k)) with
  | some p => p.2
  | none => dflt

/-- Python `time.time() - start if start else 0`: the guard is truthiness,
so both `None` and a zero timestamp give 0. -/
def elapsed_since (now : ℚ) (start : Option ℚ) : ℚ :=
  match start with
  | some ts => if ts ≠ 0 then now - ts else 0
  | none => 0

/-- `reset_render_state` (invoked only by the two operators; `scene` is
`None` for single-frame renders). -/
def reset_render_state (d : BlendData) (prefs : Prefs)
    (persistent_progress : Bool) (is_single_frame : Bool)
    (scene : Option Scene) (now : ℚ) (s : RenderState) : RenderState :=
  let base :=
    { s with
      frame_start := []
      total_start := none
      last_frame_time := 0
      first_rendered_frame := none
      progress := 0
      detected_animation := false
      pre_render_estimate := none
      total_time := if persistent_progress then s.total_time else none
      avg_time := if persistent_progress then s.avg_time else none
      last_eta_human := "Calculating ETA"
      last_eta_HHMMSS := "Calculating ETA"
      is_rendering := true
      single_frame_render := is_single_frame }
  if is_single_frame then
    { base with single_frame_start := some now }
  else
    let base := { base with single_frame_start := none }
    match scene with
    | some sc =>
      if prefs.auto_calibrate then
        { base with
          pre_render_estimate := some (estimate_animation_time d prefs sc) }
      else base
    | none => base

/-- `render_pre_handler`. -/
def render_pre_handler (d : BlendData) (prefs : Prefs) (now : ℚ)
    (scene : Scene) (s : RenderState) : RenderState :=
  let cur := scene.frame_current
  let s1 := { s with frame_start := dictSet cur now s.frame_start }
  let s2 : RenderState :=
    if s1.first_rendered_frame = none then
      { s1 with first_rendered_frame := some cur, total_start := some now }
    else
      if s1.detected_animation = false then
        let s3 := { s1 with detected_animation := true,
                            single_frame_render := false }
        if s3.pre_render_estimate = none then
          if prefs.auto_calibrate then
            { s3 with
              pre_render_estimate := some (estimate_animation_time d prefs scene) }
          else s3
        else s3
      else s1
  if s2.total_start = none then { s2 with total_start := some now } else s2

/-- `render_post_handler`.  The handler returns early if
`_first_rendered_frame is None`; otherwise a missing per-frame start
timestamp defaults to `time.time()` (duration 0).  The unguarded
`_progress = frame_index / total_frames` raises `ZeroDivisionError` when
`total_frames` is zero, modelled by `Except.error`.  (The debug `print`
is output-only.) -/
def render_post_handler (now : ℚ) (scene : Scene) (s : RenderState) :
    Except String RenderState :=
  let cur := scene.frame_current
  match s.first_rendered_frame with
  | none => Except.ok s
  | some first =>
    let frame_index := cur - first + 1
    let total_frames := scene.frame_end - first + 1
    let t := now - dictGetD s.frame_start cur now
    let s1 := { s with last_frame_time := t }
    let remaining := scene.frame_end - cur
    let s2 :=
      if remaining > 0 then
        let predicted := s1.last_frame_time * (remaining : ℚ)
        { s1 with last_eta_human := format_time_human predicted,
                  last_eta_HHMMSS := format_time_HHMMSS predicted }
      else
        { s1 with last_eta_human := "Finishing...",
                  last_eta_HHMMSS := "Finishing..." }
    if total_frames = 0 then Except.error "ZeroDivisionError"
    else
      Except.ok
        { s2 with progress := (frame_index : ℚ) / (total_frames : ℚ) }

/-- `render_complete_handler`.  Returns the new state together with the
(possibly auto-calibrated) preferences. -/
def render_complete_handler (prefs : Prefs) (now : ℚ) (scene : Scene)
    (s : RenderState) : RenderState × Prefs :=
  if s.single_frame_render then
    let total := elapsed_since now s.single_frame_start
    ({ s with
        total_time := some total
        avg_time := some total
        last_eta_human := "RENDER COMPLETE"
        last_eta_HHMMSS := "RENDER COMPLETE | Time: " ++
          format_time_HHMMSS total
        single_frame_render := false
        single_frame_start := none
        detected_animation := false
        is_rendering := false }, prefs)
  else
    let total_frames : ℤ :=
      match s.first_rendered_frame with
      | some first => scene.frame_end - first + 1
      | none => 0
    let total := elapsed_since now s.total_start
    let avg : ℚ := if total_frames ≠ 0 then total / (total_frames : ℚ) else 0
    let prefs1 :=
      match s.pre_render_estimate with
      | some pre =>
        if prefs.auto_calibrate ∧ 0 < pre ∧ 0 < total then
          let correction := total / pre
          let new_cal_factor := prefs.calibration_factor * correction
          let averaged_factor :=
            (prefs.calibration_factor + new_cal_factor) / 2
          { prefs with
            calibration_factor := max (1/10) (min 50 averaged_factor) }
        else prefs
      | none => prefs
    ({ s with
        total_time := some total
        avg_time := some avg
        last_eta_human := "RENDER COMPLETE"
        last_eta_HHMMSS := "RENDER COMPLETE | Total: " ++
          format_time_HHMMSS total ++ ", Avg: " ++ format_time_HHMMSS avg
        detected_animation := false
        pre_render_estimate := none
        is_rendering := false }, prefs1)

/-- `render_cancel_handler`.  Preferences are read (for `show_debug`) but
never written. -/
def render_cancel_handler (prefs : Prefs) (s : RenderState) :
    RenderState × Prefs :=
  ({ s with
      last_eta_human := "RENDER STOPPED"
      last_eta_HHMMSS := "RENDER STOPPED"
      is_rendering := false
      single_frame_render := false
      single_frame_start := none
      detected_animation := false
      pre_render_estimate := none }, prefs)

/-! ## Claim-side formulas (transcribed from the specification text, to be
compared with the source-side definitions above) -/

/-- The specification's Cycles formula:
`max(1, (S/100)×R×O×L×V×G×D×C)` with `S = samples×(0.5 + 5×noise)` under
adaptive sampling and `S = samples` otherwise, `R = pixels/(1920×1080)`,
`O = 1 + 0.01×meshes + verts/1e6`, `L = 1 + 0.05×lights`,
`V = 1 + 0.3×volumes`, `G = 0.7` iff fast-GI, `D = 0.9` iff denoising,
`C` the calibration factor. -/
def cycles_claim_formula (prefs : Prefs) (scene : Scene)
    (c : Complexity) : ℚ :=
  let S :=
    if scene.cycles.use_adaptive_sampling then
      scene.cycles.samples * (1/2 + 5 * scene.cycles.adaptive_threshold)
    else scene.cycles.samples
  let R := c.pixel_count / (1920 * 1080)
  let O : ℚ := 1 + (1/100) * (c.mesh_count : ℚ) + (c.total_verts : ℚ) / 1000000
  let L : ℚ := 1 + (1/20) * (c.light_count : ℚ)
  let V : ℚ := 1 + (3/10) * (c.volume_count : ℚ)
  let G : ℚ := if scene.cycles.use_fast_gi then 7/10 else 1
  let D : ℚ := if scene.cycles.use_denoising then 9/10 else 1
  max 1 ((S / 100) * R * O * L * V * G * D * prefs.calibration_factor)

/-- The EEVEE formula as the claim words it: base divisor `samples/64`,
the toggle multipliers 1.3 / 1.15 / 1.05, and **the calibration factor**
(unscaled), floored at 0.5; the backend's density factors are
`1 + 0.005×meshes` and `1 + 0.02×lights`. -/
def eevee_claim_formula (prefs : Prefs) (scene : Scene)
    (c : Complexity) : ℚ :=
  let R := c.pixel_count / (1920 * 1080)
  let O : ℚ := 1 + (1/200) * (c.mesh_count : ℚ)
  let L : ℚ := 1 + (1/50) * (c.light_count : ℚ)
  let V : ℚ := if scene.eevee.use_volumetric_lights then 13/10 else 1
  let SSR : ℚ := if scene.eevee.use_ssr then 23/20 else 1
  let AO : ℚ := if scene.eevee.use_gtao then 21/20 else 1
  max (1/2) ((scene.eevee.taa_render_samples / 64) * R * O * L * V * SSR *
    AO * prefs.calibration_factor)

/-- The EEVEE formula amended to what the source computes: the calibration
factor enters scaled by 0.1. -/
def eevee_amended_formula (prefs : Prefs) (scene : Scene)
    (c : Complexity) : ℚ :=
  let R := c.pixel_count / (1920 * 1080)
  let O : ℚ := 1 + (1/200) * (c.mesh_count : ℚ)
  let L : ℚ := 1 + (1/50) * (c.light_count : ℚ)
  let V : ℚ := if scene.eevee.use_volumetric_lights then 13/10 else 1
  let SSR : ℚ := if scene.eevee.use_ssr then 23/20 else 1
  let AO : ℚ := if scene.eevee.use_gtao then 21/20 else 1
  max (1/2) ((scene.eevee.taa_render_samples / 64) * R * O * L * V * SSR *
    AO * (prefs.calibration_factor * (1/10)))

/-- The specification's description of a valid configuration entry,
as the claim words it minus the positivity requirement: threshold nonzero
and suggestion nonempty (after the `get` defaults). -/
def valid_entries (items : List RawItem) : List (ℚ × String) :=
  items.filterMap (fun item =>
    let threshold := item.threshold.getD 0
    let suggestion := item.suggestion.getD ""
    if threshold ≠ 0 ∧ suggestion ≠ "" then some (threshold, suggestion)
    else none)

/-! ## Concrete fixtures -/

/-- An empty `bpy.data.objects`. -/
def noObjects : BlendData := { objects := [] }

/-- Default preferences (`calibration_factor` defaults to 2.0,
`auto_calibrate` to True). -/
def basePrefs : Prefs :=
  { calibration_factor := 2
    auto_calibrate := true
    show_debug := false
    persistent_progress := false }

/-- A 1920×1080 EEVEE scene at default sample counts with every toggle
off, frames 1..10. -/
def baseScene : Scene :=
  { engine := Engine.BLENDER_EEVEE
    render := { resolution_x := 1920
                resolution_y := 1080
                resolution_percentage := 100 }
    cycles := { samples := 128
                use_adaptive_sampling := false
                adaptive_threshold := 0
                use_fast_gi := false
                use_denoising := false }
    eevee := { taa_render_samples := 64
               use_volumetric_lights := false
               use_ssr := false
               use_gtao := false }
    frame_start := 1
    frame_end := 10
    frame_current := 1 }

/-! ## Claims -/

section Claims

attribute [local semireducible] Rat.sub Rat.add Rat.mul Rat.inv Rat.ofScientific

/-- C3: for every scene (and object set and preferences),
`estimate_animation_time` equals `estimate_single_frame_time` multiplied
exactly by the inclusive frame count `frame_end − frame_start + 1`. -/
theorem estimate_animation_eq_single_mul_frames (d : BlendData)
    (prefs : Prefs) (scene : Scene) :
    estimate_animation_time d prefs scene =
      estimate_single_frame_time d prefs scene *
        ((scene.frame_end - scene.frame_start + 1 : ℤ) : ℚ) :=
  rfl

/-- C10: after every Cancel event the pre-render estimate is cleared and
the preferences — in particular the calibration factor — are returned
unchanged: a cancelled render never feeds auto-calibration. -/
theorem render_cancel_clears_estimate_keeps_calibration (prefs : Prefs)
    (s : RenderState) :
    ((render_cancel_handler prefs s).1).pre_render_estimate = none ∧
    (render_cancel_handler prefs s).2 = prefs ∧
    ((render_cancel_handler prefs s).2).calibration_factor =
      prefs.calibration_factor :=
  ⟨rfl, rfl, rfl⟩

/-- C9 (amended): a Post-frame event is a no-op exactly when **no frame
start was ever recorded** (`_first_rendered_frame is None`); the state is
returned entirely unchanged. -/
theorem render_post_no_first_frame_noop (now : ℚ) (scene : Scene)
    (s : RenderState) (h : s.first_rendered_frame = none) :
    render_post_handler now scene s = Except.ok s := by
  unfold render_post_handler
  rw [h]

/-- C9 witness: the no-op case evaluated on the initial state. -/
theorem render_post_no_first_frame_noop_witness :
    render_post_handler 5 baseScene initial_state =
      Except.ok initial_state :=
  render_post_no_first_frame_noop 5 baseScene initial_state rfl

/-- The mid-render state of the C9 counterexample: frame 1's start is
recorded, frame 7's is not. -/
def unrecordedFrameState : RenderState :=
  { initial_state with
      is_rendering := true
      first_rendered_frame := some 1
      frame_start := [(1, 100)]
      last_frame_time := 5
      last_eta_human := "Calculating ETA"
      last_eta_HHMMSS := "Calculating ETA" }

/-- The scene of the C9 counterexample: a Post-frame event for frame 7. -/
def unrecordedFrameScene : Scene :=
  { baseScene with frame_current := 7, frame_end := 10 }

/-- C9 counterexample: a Post-frame event for frame 7, whose own start was
never recorded, while frame 1's start is recorded.  The claim calls this a
no-op, but the handler computes a zero duration for frame 7
(`_frame_start.get(cur, time.time())` defaults to now), overwrites the
previous frame duration 5 and the ETA strings, and updates progress. -/
theorem render_post_unrecorded_frame_counterexample :
    (render_post_handler 200 unrecordedFrameScene
        unrecordedFrameState).toOption =
      some { unrecordedFrameState with
              last_frame_time := 0
              last_eta_human := "0 seconds"
              last_eta_HHMMSS := "00:00:00"
              progress := 7/10 } ∧
    ({ unrecordedFrameState with
        last_frame_time := 0
        last_eta_human := "0 seconds"
        last_eta_HHMMSS := "00:00:00"
        progress := 7/10 } : RenderState) ≠ unrecordedFrameState := by
  decide

/-- C5: a still render of frame 11 in a scene whose `frame_end` is 10
(`total_frames = frame_end − first_rendered_frame + 1 = 0`): the
Post-frame handler executes the unguarded
`_progress = frame_index / total_frames` and raises `ZeroDivisionError`,
contradicting the claim that every division by the frames-in-run count is
guarded. -/
theorem render_post_zero_frames_division_crash :
    render_post_handler 105
        { baseScene with frame_current := 11, frame_end := 10 }
        { initial_state with
            is_rendering := true
            single_frame_render := true
            single_frame_start := some 100
            first_rendered_frame := some 11
            frame_start := [(11, 100)] } =
      Except.error "ZeroDivisionError" :=
  rfl

/-- C4 (amended): `detected_animation` after a Pre-frame event is true iff
it was already true or a first frame had already been recorded — i.e. it
flips false→true at most once per render, on the second Pre-frame event,
**whether or not** that event's frame differs from the recorded first
frame. -/
theorem render_pre_detected_animation (d : BlendData) (prefs : Prefs)
    (now : ℚ) (scene : Scene) (s : RenderState) :
    (render_pre_handler d prefs now scene s).detected_animation =
      (s.detected_animation || s.first_rendered_frame.isSome) := by
  unfold render_pre_handler
  cases hf : s.first_rendered_frame <;>
    cases hd : s.detected_animation <;>
      simp only [hf, hd] <;> (repeat' split) <;> simp_all

/-- C4 counterexample: starting a fresh animation render and delivering
two Pre-frame events for the **same** frame 5.  The first records frame 5
as first; the claim says a Pre-frame event for the frame already recorded
as first does not set `detected_animation`, but the handler sets it. -/
theorem render_pre_same_frame_counterexample :
    (render_pre_handler noObjects basePrefs 10
        { baseScene with frame_current := 5 }
        (reset_render_state noObjects
          { basePrefs with auto_calibrate := false } false false
          (some { baseScene with frame_current := 5 }) 0
          initial_state)).first_rendered_frame = some 5 ∧
    (render_pre_handler noObjects basePrefs 10
        { baseScene with frame_current := 5 }
        (reset_render_state noObjects
          { basePrefs with auto_calibrate := false } false false
          (some { baseScene with frame_current := 5 }) 0
          initial_state)).detected_animation = false ∧
    (render_pre_handler noObjects basePrefs 11
        { baseScene with frame_current := 5 }
        (render_pre_handler noObjects basePrefs 10
          { baseScene with frame_current := 5 }
          (reset_render_state noObjects
            { basePrefs with auto_calibrate := false } false false
            (some { baseScene with frame_current := 5 }) 0
            initial_state))).detected_animation = true := by
  decide

/-- A mid-render animation state used to exercise Complete-then-Cancel. -/
def preCompleteState : RenderState :=
  { initial_state with
      is_rendering := true
      total_start := some 100
      first_rendered_frame := some 1
      frame_start := [(1, 100)]
      detected_animation := true
      last_eta_human := "Finishing..."
      last_eta_HHMMSS := "Finishing..." }

/-- A one-frame animation scene for the Complete-then-Cancel trace. -/
def oneFrameScene : Scene :=
  { baseScene with frame_start := 1, frame_end := 1, frame_current := 1 }

/-- The state right after Complete fired on that render. -/
def completedAnimationState : RenderState :=
  (render_complete_handler basePrefs 160 oneFrameScene preCompleteState).1

/-- C6 counterexample: a Cancel delivered after Complete has fired
(`is_rendering` already false) is **not** a no-op — it overwrites the
terminal status strings with "RENDER STOPPED". -/
theorem render_cancel_after_complete_counterexample :
    completedAnimationState.is_rendering = false ∧
    completedAnimationState.last_eta_human = "RENDER COMPLETE" ∧
    ((render_cancel_handler basePrefs completedAnimationState).1).last_eta_human =
      "RENDER STOPPED" ∧
    (render_cancel_handler basePrefs completedAnimationState).1 ≠
      completedAnimationState := by
  decide

/-- C6 (amended): a Cancel after Complete leaves the post-completion
summary and every already-cleared lifecycle flag unchanged and does not
touch the preferences, but it does overwrite the two terminal status
strings with "RENDER STOPPED"; apart from those two strings it acts as a
no-op. -/
theorem render_cancel_after_complete (prefs : Prefs) (s : RenderState)
    (h1 : s.is_rendering = false) (h2 : s.single_frame_render = false)
    (h3 : s.single_frame_start = none) (h4 : s.detected_animation = false)
    (h5 : s.pre_render_estimate = none) :
    (render_cancel_handler prefs s).1 =
      { s with last_eta_human := "RENDER STOPPED",
               last_eta_HHMMSS := "RENDER STOPPED" } ∧
    (render_cancel_handler prefs s).2 = prefs := by
  cases s
  simp_all [render_cancel_handler]

/-- C6 witness: the amended statement evaluated on a state with all
per-render fields already cleared. -/
theorem render_cancel_after_complete_witness :
    (render_cancel_handler basePrefs initial_state).1 =
      { initial_state with last_eta_human := "RENDER STOPPED",
                           last_eta_HHMMSS := "RENDER STOPPED" } ∧
    (render_cancel_handler basePrefs initial_state).2 = basePrefs :=
  render_cancel_after_complete basePrefs initial_state rfl rfl rfl rfl rfl

/-- C1: at Complete for an animation render (`_single_frame_render`
false), when auto-calibrate is on, a pre-render estimate `E` was captured
and both `E` and the observed total `A = elapsed_since now total_start`
are positive, the persisted calibration factor becomes exactly
`clamp((F + F×(A/E))/2, 0.1, 50.0)` (written `max 0.1 (min 50 ·)` as in
the source); if any of these conditions fails the factor is unchanged. -/
theorem render_complete_auto_calibration (prefs : Prefs) (now : ℚ)
    (scene : Scene) (s : RenderState) :
    (∀ E, s.single_frame_render = false → prefs.auto_calibrate = true →
      s.pre_render_estimate = some E → 0 < E →
      0 < elapsed_since now s.total_start →
      ((render_complete_handler prefs now scene s).2).calibration_factor =
        max (1/10) (min 50 ((prefs.calibration_factor +
          prefs.calibration_factor *
            (elapsed_since now s.total_start / E)) / 2))) ∧
    ((s.single_frame_render = true ∨ prefs.auto_calibrate = false ∨
      s.pre_render_estimate = none ∨
      (∃ E, s.pre_render_estimate = some E ∧ E ≤ 0) ∨
      elapsed_since now s.total_start ≤ 0) →
      ((render_complete_handler prefs now scene s).2).calibration_factor =
        prefs.calibration_factor) := by
  constructor
  · intro E hsf ha hpre hE htot
    simp only [render_complete_handler, hsf, Bool.false_eq_true, if_false,
      hpre, ha, true_and]
    rw [if_pos ⟨hE, htot⟩]
  · intro hfail
    by_cases hsf : s.single_frame_render = true
    · simp only [render_complete_handler, hsf, if_true]
    · simp only [Bool.not_eq_true] at hsf
      simp only [render_complete_handler, hsf, Bool.false_eq_true, if_false]
      cases hp : s.pre_render_estimate with
      | none => rfl
      | some E =>
        dsimp only
        rw [if_neg]
        rintro ⟨hauto, hpos, htot⟩
        rcases hfail with h | h | h | ⟨E2, hE2, hEle⟩ | h
        · rw [h] at hsf; cases hsf
        · rw [h] at hauto; cases hauto
        · rw [hp] at h; cases h
        · rw [hp] at hE2
          cases hE2
          exact absurd hpos (not_lt.mpr hEle)
        · exact absurd htot (not_lt.mpr h)

/-- C1 witness: the specification's own example, `F = 2`, `E = 100`,
`A = 200` (render started at 100, Complete at 300), giving the new
factor 3. -/
theorem render_complete_auto_calibration_witness :
    ((render_complete_handler basePrefs 300 oneFrameScene
        { preCompleteState with pre_render_estimate := some 100 }).2).calibration_factor =
      3 := by
  rw [(render_complete_auto_calibration basePrefs 300 oneFrameScene
    { preCompleteState with pre_render_estimate := some 100 }).1
    100 rfl rfl rfl (by norm_num) (by decide)]
  decide

/-- The Cycles estimator agrees with the specification's Cycles formula
for every input (helper for C2). -/
theorem estimate_cycles_eq_claim (prefs : Prefs) (scene : Scene)
    (c : Complexity) :
    estimate_cycles_render_time prefs scene c =
      cycles_claim_formula prefs scene c := by
  unfold estimate_cycles_render_time cycles_claim_formula
  cases hA : scene.cycles.use_adaptive_sampling <;>
    cases hG : scene.cycles.use_fast_gi <;>
      cases hD : scene.cycles.use_denoising <;>
        simp only [hA, hG, hD, Bool.false_eq_true, if_true, if_false,
          ite_true, ite_false] <;>
        (congr 1; ring)

/-- The EEVEE estimator agrees with the amended EEVEE formula (helper for
C2). -/
theorem estimate_eevee_eq_amended (prefs : Prefs) (scene : Scene)
    (c : Complexity) :
    estimate_eevee_render_time prefs scene c =
      eevee_amended_formula prefs scene c := by
  unfold estimate_eevee_render_time eevee_amended_formula
  cases hV : scene.eevee.use_volumetric_lights <;>
    cases hS : scene.eevee.use_ssr <;>
      cases hO : scene.eevee.use_gtao <;>
        simp only [hV, hS, hO, Bool.false_eq_true, if_true, if_false,
          ite_true, ite_false] <;>
        (congr 1; ring)

/-- C2 counterexample: an empty 1920×1080 EEVEE scene at 64 samples with
all toggles off and calibration factor 2.  The source computes
`max(0.5, 1×(2×0.1)) = 0.5`, while the claim's formula (with the unscaled
calibration factor) gives `max(0.5, 1×2) = 2`. -/
theorem estimate_eevee_claim_counterexample :
    estimate_single_frame_time noObjects basePrefs baseScene = 1/2 ∧
    eevee_claim_formula basePrefs baseScene
      (get_scene_complexity noObjects baseScene) = 2 ∧
    estimate_single_frame_time noObjects basePrefs baseScene ≠
      eevee_claim_formula basePrefs baseScene
        (get_scene_complexity noObjects baseScene) := by
  refine ⟨by decide, by decide, by decide⟩

/-- C2 (amended): `estimate_single_frame_time` computes the
specification's Cycles formula for the high-fidelity backend, and for the
fast backend the analogous EEVEE product with the calibration factor
scaled by 0.1. -/
theorem estimate_single_frame_time_formulas (d : BlendData) (prefs : Prefs)
    (scene : Scene) :
    (scene.engine = Engine.CYCLES →
      estimate_single_frame_time d prefs scene =
        cycles_claim_formula prefs scene (get_scene_complexity d scene)) ∧
    (scene.engine = Engine.BLENDER_EEVEE_NEXT ∨
        scene.engine = Engine.BLENDER_EEVEE →
      estimate_single_frame_time d prefs scene =
        eevee_amended_formula prefs scene (get_scene_complexity d scene)) := by
  constructor
  · intro h
    unfold estimate_single_frame_time
    rw [h]
    exact estimate_cycles_eq_claim prefs scene (get_scene_complexity d scene)
  · rintro (h | h) <;>
      (unfold estimate_single_frame_time; rw [h];
        exact estimate_eevee_eq_amended prefs scene
          (get_scene_complexity d scene))

/-- C2 witness: the amended formulas evaluated on a concrete Cycles
scene. -/
theorem estimate_single_frame_time_formulas_witness :
    estimate_single_frame_time noObjects basePrefs
        { baseScene with engine := Engine.CYCLES } =
      cycles_claim_formula basePrefs
        { baseScene with engine := Engine.CYCLES }
        (get_scene_complexity noObjects
          { baseScene with engine := Engine.CYCLES }) :=
  (estimate_single_frame_time_formulas noObjects basePrefs
    { baseScene with engine := Engine.CYCLES }).1 rfl

/-- Helper: the lookup loop consumes a prefix of entries whose thresholds
are all within `secs`, keeping the last seen message as accumulator. -/
lemma activityLoop_append_of_all_le (secs : ℚ) (tail : List (ℚ × String)) :
    ∀ (l : List (ℚ × String)) (acc : String), (∀ e ∈ l, e.1 ≤ secs) →
      activityLoop secs acc (l ++ tail) =
        activityLoop secs (l.foldl (fun _ e => e.2) acc) tail
  | [], acc, _ => rfl
  | (t, m) :: l, acc, h => by
    have ht : t ≤ secs := h (t, m) (List.mem_cons_self _ _)
    simp only [List.cons_append, activityLoop, if_pos ht, List.foldl_cons]
    exact activityLoop_append_of_all_le secs tail l m
      (fun e he => h e (List.mem_cons_of_mem _ he))

/-- Helper: the lookup loop breaks at the first entry whose threshold
exceeds `secs`, returning the accumulator. -/
lemma activityLoop_stop (secs : ℚ) (acc : String) (t : ℚ) (m : String)
    (l : List (ℚ × String)) (h : secs < t) :
    activityLoop secs acc ((t, m) :: l) = acc := by
  simp only [activityLoop, if_neg (not_le.mpr h)]

/-- Helper: on a positive input and a nonempty table, the lookup is the
loop seeded with the first entry's message. -/
lemma get_activity_pos_eq_loop (secs : ℚ) (t0 : ℚ) (m0 : String)
    (rest : List (ℚ × String)) (hpos : 0 < secs) :
    get_activity_for_time ((t0, m0) :: rest) secs =
      some (activityLoop secs m0 ((t0, m0) :: rest)) := by
  unfold get_activity_for_time
  rw [if_neg (not_le.mpr hpos)]

/-- C7: for every ascending-sorted table, the lookup returns the fixed
instant message on `secs ≤ 0` regardless of the table; the first entry's
message when `secs` is below the smallest threshold; the message of an
entry whose threshold is the greatest one `≤ secs` (the entry before the
first exceeding one, so each `secs ∈ [t1, t2)` of consecutive thresholds
returns `t1`'s message); and the last entry's message when even the last
threshold is `≤ secs`. -/
theorem get_activity_for_time_spec (table : List (ℚ × String)) (secs : ℚ)
    (hsort : table.Pairwise (fun a b => a.1 ≤ b.1)) :
    (secs ≤ 0 → get_activity_for_time table secs = some "Instant render!") ∧
    (∀ t0 m0 rest, table = (t0, m0) :: rest → 0 < secs → secs < t0 →
      get_activity_for_time table secs = some m0) ∧
    (∀ l1 t1 m1 t2 m2 l2,
      table = l1 ++ (t1, m1) :: (t2, m2) :: l2 → 0 < secs → t1 ≤ secs →
      secs < t2 → get_activity_for_time table secs = some m1) ∧
    (∀ l1 t1 m1, table = l1 ++ [(t1, m1)] → 0 < secs → t1 ≤ secs →
      get_activity_for_time table secs = some m1) := by
  refine ⟨?_, ?_, ?_, ?_⟩
  · intro h
    unfold get_activity_for_time
    rw [if_pos h]
  · intro t0 m0 rest htab hpos hlt
    subst htab
    rw [get_activity_pos_eq_loop secs t0 m0 rest hpos]
    rw [activityLoop_stop secs m0 t0 m0 rest hlt]
  · intro l1 t1 m1 t2 m2 l2 htab hpos h1 h2
    subst htab
    have hall : ∀ e ∈ l1, e.1 ≤ secs := by
      intro e he
      have h3 := (List.pairwise_append.mp hsort).2.2 e he (t1, m1)
        (List.mem_cons_self _ _)
      exact le_trans h3 h1
    have key : ∀ acc : String,
        activityLoop secs acc (l1 ++ (t1, m1) :: (t2, m2) :: l2) = m1 := by
      intro acc
      rw [activityLoop_append_of_all_le secs _ l1 acc hall]
      simp only [activityLoop, if_pos h1]
      exact activityLoop_stop secs m1 t2 m2 l2 h2
    cases l1 with
    | nil =>
      rw [List.nil_append] at key ⊢
      rw [get_activity_pos_eq_loop secs t1 m1 ((t2, m2) :: l2) hpos]
      rw [key m1]
    | cons a l1 =>
      obtain ⟨ta, ma⟩ := a
      rw [List.cons_append] at key ⊢
      rw [get_activity_pos_eq_loop secs ta ma
        (l1 ++ (t1, m1) :: (t2, m2) :: l2) hpos]
      rw [key ma]
  · intro l1 t1 m1 htab hpos h1
    subst htab
    have hall : ∀ e ∈ l1, e.1 ≤ secs := by
      intro e he
      have h3 := (List.pairwise_append.mp hsort).2.2 e he (t1, m1)
        (List.mem_cons_self _ _)
      exact le_trans h3 h1
    have key : ∀ acc : String,
        activityLoop secs acc (l1 ++ [(t1, m1)]) = m1 := by
      intro acc
      rw [activityLoop_append_of_all_le secs _ l1 acc hall]
      simp only [activityLoop, if_pos h1]
    cases l1 with
    | nil =>
      rw [List.nil_append] at key ⊢
      rw [get_activity_pos_eq_loop secs t1 m1 [] hpos]
      rw [key m1]
    | cons a l1 =>
      obtain ⟨ta, ma⟩ := a
      rw [List.cons_append] at key ⊢
      rw [get_activity_pos_eq_loop secs ta ma (l1 ++ [(t1, m1)]) hpos]
      rw [key ma]

/-- C7 witness: on the sorted table [(5, stretch), (30, water)], the
input 10 seconds falls in [5, 30) and returns the 5-second message. -/
theorem get_activity_for_time_spec_witness :
    get_activity_for_time [(5, "stretch"), (30, "water")] 10 =
      some "stretch" :=
  (get_activity_for_time_spec [(5, "stretch"), (30, "water")] 10
    (by decide)).2.2.1 [] 5 "stretch" 30 "water" [] rfl (by norm_num)
    (by norm_num) (by norm_num)

/-- Helper: the loader's accumulation loop collects exactly the entries
with nonzero threshold and nonempty suggestion, in order. -/
lemma loader_loop_eq (items : List RawItem) :
    ∀ acc : List (ℚ × String),
      List.foldl (fun acc item =>
        if item.threshold.getD 0 ≠ 0 ∧ item.suggestion.getD "" ≠ "" then
          acc ++ [(item.threshold.getD 0, item.suggestion.getD "")]
        else acc) acc items = acc ++ valid_entries items := by
  induction items with
  | nil =>
    intro acc
    simp [valid_entries]
  | cons it rest ih =>
    intro acc
    simp only [List.foldl_cons]
    by_cases h : it.threshold.getD 0 ≠ 0 ∧ it.suggestion.getD "" ≠ ""
    · rw [if_pos h, ih]
      simp [valid_entries, List.filterMap_cons, h]
    · rw [if_neg h, ih]
      simp only [valid_entries, List.filterMap_cons]
      rw [if_neg h]

/-- C8 (amended): the loader falls back to the built-in table when the
file is unreadable/unparseable or when no entry survives filtering, and
otherwise returns the surviving entries sorted ascending by threshold;
but the filter keeps every entry whose threshold is **nonzero** (Python
truthiness) and suggestion nonempty — negative thresholds are kept, not
dropped. -/
theorem load_time_activities_spec (input : Option (Option (List RawItem))) :
    (input = none → _load_time_activities input = default_activities) ∧
    (∀ acts, input = some acts → valid_entries (acts.getD []) = [] →
      _load_time_activities input = default_activities) ∧
    (∀ acts, input = some acts → valid_entries (acts.getD []) ≠ [] →
      _load_time_activities input =
        (valid_entries (acts.getD [])).mergeSort
          (fun a b => decide (a.1 ≤ b.1)) ∧
      (_load_time_activities input).Pairwise (fun a b => a.1 ≤ b.1)) := by
  refine ⟨?_, ?_, ?_⟩
  · intro h
    rw [h]
    rfl
  · intro acts h hval
    rw [h]
    unfold _load_time_activities
    dsimp only
    rw [loader_loop_eq (acts.getD []) []]
    simp only [List.nil_append]
    rw [hval]
    simp
  · intro acts h hval
    have hne : (valid_entries (acts.getD [])).mergeSort
        (fun a b => decide (a.1 ≤ b.1)) ≠ [] := by
      intro hnil
      apply hval
      have hperm := List.mergeSort_perm (valid_entries (acts.getD []))
        (fun a b => decide (a.1 ≤ b.1))
      rw [hnil] at hperm
      exact (hperm.symm).eq_nil
    have hload : _load_time_activities (some acts) =
        (valid_entries (acts.getD [])).mergeSort
          (fun a b => decide (a.1 ≤ b.1)) := by
      unfold _load_time_activities
      dsimp only
      rw [loader_loop_eq (acts.getD []) []]
      simp only [List.nil_append]
      rw [if_pos hne]
    refine ⟨by rw [h]; exact hload, ?_⟩
    rw [h, hload]
    have hs := @List.sorted_mergeSort (ℚ × String)
      (fun a b => decide (a.1 ≤ b.1))
      (fun a b c hab hbc => by
        simp only [decide_eq_true_eq] at hab hbc ⊢
        exact le_trans hab hbc)
      (fun a b => by
        rcases le_total a.1 b.1 with hab | hab <;>
          simp [hab])
      (valid_entries (acts.getD []))
    exact hs.imp (fun hab => of_decide_eq_true hab)

/-- A parsed configuration entry with a negative threshold. -/
def walkItem : RawItem := { threshold := some (-5), suggestion := some "take a walk" }

/-- A parsed configuration entry with a positive threshold. -/
def stretchItem : RawItem := { threshold := some 30, suggestion := some "stretch" }

/-- C8 counterexample: a configuration with the single entry
(threshold −5, "take a walk").  The claim says non-positive thresholds
are dropped (which here would leave no valid entry and force the
fallback table), but the loader keeps the negative-threshold entry. -/
theorem load_time_activities_counterexample :
    _load_time_activities (some (some [walkItem])) =
      [((-5 : ℚ), "take a walk")] ∧
    ¬ (0 < (-5 : ℚ)) ∧
    [((-5 : ℚ), "take a walk")] ≠ default_activities := by
  have h1 : valid_entries [walkItem] = [((-5 : ℚ), "take a walk")] := by
    decide
  refine ⟨?_, by decide, by decide⟩
  unfold _load_time_activities
  dsimp only
  simp only [Option.getD_some]
  rw [loader_loop_eq [walkItem] []]
  simp only [List.nil_append]
  rw [h1]
  simp

/-- C8 witness: the amended loader characterisation evaluated on a
one-entry configuration. -/
theorem load_time_activities_spec_witness :
    _load_time_activities (some (some [stretchItem])) =
      (valid_entries ((some [stretchItem] : Option (List RawItem)).getD
        [])).mergeSort (fun a b => decide (a.1 ≤ b.1)) ∧
    (_load_time_activities (some (some [stretchItem]))).Pairwise
      (fun a b => a.1 ≤ b.1) :=
  (load_time_activities_spec (some (some [stretchItem]))).2.2
    (some [stretchItem]) rfl (by decide)

end Claims

end Blendrendest
